import Mathlib

/-!
Shallow embedding of the CHIP-8 CPU interpreter (`src/lib.rs` of the
`chip_8` crate) and proofs about its instruction semantics.

Machine integers are modelled as `Nat` with explicit `% 2^w` at the points
where the Rust source wraps or casts (`as u8`, `as u16`, `overflowing_add`,
...).  The register file, memory, stack and screen are modelled as total
functions from indices; the Rust arrays guarantee in-bounds indices by
construction (nibbles are < 16), and well-formedness bounds appear as
hypotheses where a property needs them.  Fallible operations (`call`,
`ret`, the dispatch) return `Except Fault _` / a `StepResult` so that the
panics of the source (`Stack overflow`, `Stack underflow`, the
unimplemented-opcode `todo!`) are explicit outcomes.
-/

namespace Chip8

/-- The display buffer `[[bool; 64]; 32]`: row, then column, `true` = lit. -/
def Screen : Type := Nat → Nat → Bool

/-- The fatal conditions of the interpreter: the two stack panics and the
`todo!("opcode {:04x}")` decode failure, which remembers the raw word. -/
inductive Fault where
  | stackOverflow : Fault
  | stackUnderflow : Fault
  | unimplementedOpcode : Nat → Fault
deriving DecidableEq, Repr

/-- The CPU state of `struct CPU`: `program_counter: usize`,
`registers: [u8; 16]`, `memory: [u8; 4096]`, `stack: [u16; 16]`,
`stack_pointer: usize`, `i: u16`.  Arrays are total functions from `Nat`;
only indices 0..15 (registers, stack) resp. 0..4095 (memory) are meaningful. -/
structure CPU where
  program_counter : Nat
  registers : Nat → Nat
  memory : Nat → Nat
  stack : Nat → Nat
  stack_pointer : Nat
  i : Nat

/-- `c`: bits 12-15 of the instruction word, `(opcode & 0xF000) >> 12`. -/
def opc (op : Nat) : Nat := (Nat.land op 0xF000) >>> 12

/-- `x`: bits 8-11 of the instruction word, `(opcode & 0x0F00) >> 8`. -/
def opx (op : Nat) : Nat := (Nat.land op 0x0F00) >>> 8

/-- `y`: bits 4-7 of the instruction word, `(opcode & 0x00F0) >> 4`. -/
def opy (op : Nat) : Nat := (Nat.land op 0x00F0) >>> 4

/-- `d`: bits 0-3 of the instruction word, `opcode & 0x000F`. -/
def opd (op : Nat) : Nat := Nat.land op 0x000F

/-- `nnn`: the low 12 bits of the instruction word, `opcode & 0x0FFF`. -/
def opnnn (op : Nat) : Nat := Nat.land op 0x0FFF

/-- `nn`: the low 8 bits of the instruction word, `opcode & 0x00FF`. -/
def opnn (op : Nat) : Nat := Nat.land op 0x00FF

/-- `read_opcode`: the two bytes at `program_counter`, big-endian,
`byte1 << 8 | byte2`. -/
def read_opcode (s : CPU) : Nat :=
  (s.memory s.program_counter) <<< 8 ||| s.memory (s.program_counter + 1)

/-- `jump` (`1,nnn`): `program_counter := addr`. -/
def jump (s : CPU) (addr : Nat) : CPU :=
  { s with program_counter := addr }

/-- `jump_reg` (`B,nnn`): `program_counter := registers[0] + addr`. -/
def jump_reg (s : CPU) (addr : Nat) : CPU :=
  { s with program_counter := s.registers 0 + addr }

/-- `call` (`2,nnn`): panics with `Stack overflow` if
`stack_pointer >= stack.len()`; otherwise pushes the current
`program_counter` (`as u16`, hence `% 2^16`) and jumps to `addr`. -/
def call (s : CPU) (addr : Nat) : Except Fault CPU :=
  if s.stack_pointer ≥ 16 then
    .error .stackOverflow
  else
    .ok { s with
          stack := Function.update s.stack s.stack_pointer (s.program_counter % 65536),
          stack_pointer := s.stack_pointer + 1,
          program_counter := addr }

/-- `ret` (`0,0,E,E`): panics with `Stack underflow` if `stack_pointer == 0`;
otherwise decrements `stack_pointer` and restores `program_counter` from the
stack. -/
def ret (s : CPU) : Except Fault CPU :=
  if s.stack_pointer = 0 then
    .error .stackUnderflow
  else
    .ok { s with
          stack_pointer := s.stack_pointer - 1,
          program_counter := s.stack (s.stack_pointer - 1) }

/-- `add_xy` (`8,x,y,4`): `registers[x] := registers[x] + registers[y]` via
`overflowing_add` (value `% 256`), then `registers[0xF] := 1` if the sum
overflowed 8 bits, else `0`.  The flag write happens after the sum write. -/
def add_xy (s : CPU) (x y : Nat) : CPU :=
  let arg1 := s.registers x
  let arg2 := s.registers y
  let regs1 := Function.update s.registers x ((arg1 + arg2) % 256)
  { s with registers := Function.update regs1 15 (if arg1 + arg2 ≥ 256 then 1 else 0) }

/-- `sub_xy` (`8,x,y,5`): `registers[x] := registers[x] - registers[y]` via
`overflowing_sub` (wrapping), then `registers[0xF] := 0` on borrow, else `1`. -/
def sub_xy (s : CPU) (x y : Nat) : CPU :=
  let arg1 := s.registers x
  let arg2 := s.registers y
  let regs1 := Function.update s.registers x ((arg1 + 256 - arg2) % 256)
  { s with registers := Function.update regs1 15 (if arg1 < arg2 then 0 else 1) }

/-- `sub_n` (`8,x,y,7`): `registers[x] := registers[y] - registers[x]`
(operand order reversed), same flag convention as `sub_xy`. -/
def sub_n (s : CPU) (x y : Nat) : CPU :=
  let arg1 := s.registers x
  let arg2 := s.registers y
  let regs1 := Function.update s.registers x ((arg2 + 256 - arg1) % 256)
  { s with registers := Function.update regs1 15 (if arg2 < arg1 then 0 else 1) }

/-- `skip_equal` (`3,x,nn`): `program_counter += 2` if
`registers[x] == nn as u8`. -/
def skip_equal (s : CPU) (x nn : Nat) : CPU :=
  if s.registers x = nn % 256 then
    { s with program_counter := s.program_counter + 2 }
  else s

/-- `skip_not_equal` (`4,x,nn`): `program_counter += 2` if
`registers[x] != nn as u8`. -/
def skip_not_equal (s : CPU) (x nn : Nat) : CPU :=
  if s.registers x ≠ nn % 256 then
    { s with program_counter := s.program_counter + 2 }
  else s

/-- `skip_equal_reg` (dispatched from `5,x,y,_`): `program_counter += 2` if
`registers[x] == registers[y]`. -/
def skip_equal_reg (s : CPU) (x y : Nat) : CPU :=
  if s.registers x = s.registers y then
    { s with program_counter := s.program_counter + 2 }
  else s

/-- `skip_not_equal_reg` (`9,x,y,0`): `program_counter += 2` if
`registers[x] != registers[y]`. -/
def skip_not_equal_reg (s : CPU) (x y : Nat) : CPU :=
  if s.registers x ≠ s.registers y then
    { s with program_counter := s.program_counter + 2 }
  else s

/-- `set_register` (`6,x,nn`): `registers[x] := nn as u8`. -/
def set_register (s : CPU) (x nn : Nat) : CPU :=
  { s with registers := Function.update s.registers x (nn % 256) }

/-- `add` (`7,x,nn`): `registers[x] += nn as u8`, the `u8` addition wrapping
modulo 256.  No flag is written. -/
def add (s : CPU) (x nn : Nat) : CPU :=
  { s with registers := Function.update s.registers x ((s.registers x + nn % 256) % 256) }

/-- `assign` (`8,x,y,0`): `registers[x] := registers[y]`. -/
def assign (s : CPU) (x y : Nat) : CPU :=
  { s with registers := Function.update s.registers x (s.registers y) }

/-- `or` (`8,x,y,1`): `registers[x] |= registers[y]`. -/
def or_xy (s : CPU) (x y : Nat) : CPU :=
  { s with registers := Function.update s.registers x (Nat.lor (s.registers x) (s.registers y)) }

/-- `and` (`8,x,y,2`): `registers[x] &= registers[y]`. -/
def and_xy (s : CPU) (x y : Nat) : CPU :=
  { s with registers := Function.update s.registers x (Nat.land (s.registers x) (s.registers y)) }

/-- `xor` (`8,x,y,3`): `registers[x] ^= registers[y]`. -/
def xor_xy (s : CPU) (x y : Nat) : CPU :=
  { s with registers := Function.update s.registers x (Nat.xor (s.registers x) (s.registers y)) }

/-- `shift_right` (`8,x,_,6`): store the least-significant bit of
`registers[x]` into `registers[0xF]`, then `registers[x] >>= 1`.
The flag write happens first, as in the source. -/
def shift_right (s : CPU) (x : Nat) : CPU :=
  let least_sig := Nat.land (s.registers x) 1
  let regs1 := Function.update s.registers 15 least_sig
  { s with registers := Function.update regs1 x (regs1 x >>> 1) }

/-- `shift_left` (`8,x,_,E`): store the most-significant bit of
`registers[x]` into `registers[0xF]`, then `registers[x] <<= 1` (the `u8`
shift keeps the low 8 bits). -/
def shift_left (s : CPU) (x : Nat) : CPU :=
  let most_sig := Nat.land (s.registers x) 128
  let regs1 := Function.update s.registers 15 (most_sig >>> 7)
  { s with registers := Function.update regs1 x ((regs1 x <<< 1) % 256) }

/-- `set_i` (`A,nnn`): `i := addr`. -/
def set_i (s : CPU) (addr : Nat) : CPU :=
  { s with i := addr }

/-- `set_i_reg` (`F,x,1,E`): `i += registers[x]`, the `u16` addition
wrapping modulo 65536. -/
def set_i_reg (s : CPU) (x : Nat) : CPU :=
  { s with i := (s.i + s.registers x) % 65536 }

/-- `rand` (`C,_,nn`): `registers[0] := (nn & rnd) as u8` where `rnd` models
the value drawn from the thread-local generator (`gen_range(1.0..256.0) as
u16`, so 1..=255).  The destination is register 0; the decoded `x` field is
not passed in. -/
def rand (s : CPU) (nn rnd : Nat) : CPU :=
  { s with registers := Function.update s.registers 0 (Nat.land nn rnd % 256) }

/-- `reg_dump` (`F,x,5,5`): for `ind` in `0..=x`,
`memory[i + ind] := registers[ind]`. -/
def reg_dump (s : CPU) (x : Nat) : CPU :=
  { s with
    memory :=
      (List.range (x + 1)).foldl
        (fun m ind => Function.update m (s.i + ind) (s.registers ind)) s.memory }

/-- `reg_load` (`F,x,6,5`): for `ind` in `0..=x`,
`registers[ind] := memory[i + ind]`. -/
def reg_load (s : CPU) (x : Nat) : CPU :=
  { s with
    registers :=
      (List.range (x + 1)).foldl
        (fun r ind => Function.update r ind (s.memory (s.i + ind))) s.registers }

/-- `bcd` (`F,x,3,3`): store the hundreds, tens and ones digits of
`registers[x]` at `memory[i]`, `memory[i+1]`, `memory[i+2]`. -/
def bcd (s : CPU) (x : Nat) : CPU :=
  let v := s.registers x
  { s with
    memory :=
      Function.update
        (Function.update
          (Function.update s.memory (s.i + 0) (v / 100))
          (s.i + 1) (v / 10 % 10))
        (s.i + 2) (v % 10) }

/-- Repeated halving for the digits of `format!("{:b}", n)`: most-significant
bit first, NO leading zeros (`true` models the character `1`).  The first
argument is structural recursion fuel; `n` itself always suffices, since `n`
has at most `n` binary digits. -/
def natBinDigitsAux : Nat → Nat → List Bool
  | 0, _ => []
  | _, 0 => []
  | fuel + 1, n + 1 => natBinDigitsAux fuel ((n + 1) / 2) ++ [decide ((n + 1) % 2 = 1)]

/-- The digits of `format!("{:b}", n)` for `n > 0`. -/
def natBinDigits (n : Nat) : List Bool := natBinDigitsAux n n

/-- `format!("{:b}", n)` as a list of bits: the minimal binary
representation, and the single character `0` when `n = 0`. -/
def formatBin (n : Nat) : List Bool :=
  if n = 0 then [false] else natBinDigits n

/-- `get_display_bits`: the `d` bytes at `memory[i .. i+d)` rendered with
`format!("{:b}", byte)` (one bit string per row, no zero padding). -/
def get_display_bits (s : CPU) (d : Nat) : List (List Bool) :=
  (List.range d).map (fun r => formatBin (s.memory (s.i + r)))

/-- Write one pixel of the screen. -/
def setPixel (scr : Screen) (r c : Nat) (b : Bool) : Screen :=
  fun r0 c0 => if r0 = r ∧ c0 = c then b else scr r0 c0

/-- The inner loop of `draw` over one bit string: `j` is the running
`char_ind`, each character XORs the pixel at `(row, x + j)`, and `flip`
accumulates whether some pixel transitioned lit → unlit. -/
def drawRow : Screen → Nat → Nat → Nat → List Bool → Bool → Screen × Bool
  | scr, _, _, _, [], flip => (scr, flip)
  | scr, row, x, j, ch :: rest, flip =>
      let previous := scr row (x + j)
      let scr1 := setPixel scr row (x + j) (Bool.xor (scr row (x + j)) ch)
      drawRow scr1 row x (j + 1) rest (flip || (previous && !(scr1 row (x + j))))

/-- The outer loop of `draw` over the bit strings: `rIdx` is the running
`byte_string_ind`, so row `y + rIdx` of the screen receives the string. -/
def drawRows : Screen → Nat → Nat → Nat → List (List Bool) → Bool → Screen × Bool
  | scr, _, _, _, [], flip => (scr, flip)
  | scr, y, x, rIdx, row :: rest, flip =>
      let res := drawRow scr (y + rIdx) x 0 row flip
      drawRows res.1 y x (rIdx + 1) rest res.2

/-- `draw` (`D,x,y,d`): XOR the bit strings of `get_display_bits d` onto the
screen starting at column `registers[x]`, row `registers[y]`, then set
`registers[0xF] := 1` if some pixel flipped lit → unlit, else `0`. -/
def draw (s : CPU) (x y d : Nat) (scr : Screen) : CPU × Screen :=
  let bits := get_display_bits s d
  let x_coord := s.registers x
  let y_coord := s.registers y
  let res := drawRows scr y_coord x_coord 0 bits false
  ({ s with registers := Function.update s.registers 15 (if res.2 then 1 else 0) },
   res.1)

/-- The outcome of one `run` step: `terminated` models `return None` on the
all-zero opcode, `ok` models `Some(())`, and `fault` models a panic. -/
inductive StepResult where
  | terminated : CPU → Screen → StepResult
  | ok : CPU → Screen → StepResult
  | fault : Fault → StepResult

/-- The `match (c, x, y, d)` dispatch of `run`, applied to the state with
the already-incremented `program_counter`.  The final arm is the
`todo!("opcode {:04x}", opcode)` panic. -/
def step (rnd : Nat) (s : CPU) (screen : Screen) (op : Nat) : StepResult :=
  if opc op = 0 ∧ opx op = 0 ∧ opy op = 0 ∧ opd op = 0 then
    .terminated s screen
  else if opc op = 0 ∧ opx op = 0 ∧ opy op = 0xE ∧ opd op = 0xE then
    match ret s with
    | .ok s1 => .ok s1 screen
    | .error f => .fault f
  else if opc op = 0x1 then .ok (jump s (opnnn op)) screen
  else if opc op = 0x2 then
    match call s (opnnn op) with
    | .ok s1 => .ok s1 screen
    | .error f => .fault f
  else if opc op = 0x3 then .ok (skip_equal s (opx op) (opnn op)) screen
  else if opc op = 0x4 then .ok (skip_not_equal s (opx op) (opnn op)) screen
  else if opc op = 0x5 then .ok (skip_equal_reg s (opx op) (opy op)) screen
  else if opc op = 0x6 then .ok (set_register s (opx op) (opnn op)) screen
  else if opc op = 0x7 then .ok (add s (opx op) (opnn op)) screen
  else if opc op = 0x8 ∧ opd op = 0 then .ok (assign s (opx op) (opy op)) screen
  else if opc op = 0x8 ∧ opd op = 0x1 then .ok (or_xy s (opx op) (opy op)) screen
  else if opc op = 0x8 ∧ opd op = 0x2 then .ok (and_xy s (opx op) (opy op)) screen
  else if opc op = 0x8 ∧ opd op = 0x3 then .ok (xor_xy s (opx op) (opy op)) screen
  else if opc op = 0x8 ∧ opd op = 0x4 then .ok (add_xy s (opx op) (opy op)) screen
  else if opc op = 0x8 ∧ opd op = 0x5 then .ok (sub_xy s (opx op) (opy op)) screen
  else if opc op = 0x8 ∧ opd op = 0x6 then .ok (shift_right s (opx op)) screen
  else if opc op = 0x8 ∧ opd op = 0x7 then .ok (sub_n s (opx op) (opy op)) screen
  else if opc op = 0x8 ∧ opd op = 0xE then .ok (shift_left s (opx op)) screen
  else if opc op = 0x9 ∧ opd op = 0 then .ok (skip_not_equal_reg s (opx op) (opy op)) screen
  else if opc op = 0xA then .ok (set_i s (opnnn op)) screen
  else if opc op = 0xB then .ok (jump_reg s (opnnn op)) screen
  else if opc op = 0xC then .ok (rand s (opnn op) rnd) screen
  else if opc op = 0xF ∧ opy op = 0x1 ∧ opd op = 0xE then .ok (set_i_reg s (opx op)) screen
  else if opc op = 0xF ∧ opy op = 0x3 ∧ opd op = 0x3 then .ok (bcd s (opx op)) screen
  else if opc op = 0xF ∧ opy op = 0x5 ∧ opd op = 0x5 then .ok (reg_dump s (opx op)) screen
  else if opc op = 0xF ∧ opy op = 0x6 ∧ opd op = 0x5 then .ok (reg_load s (opx op)) screen
  else if opc op = 0xD then
    let res := draw s (opx op) (opy op) (opd op) screen
    .ok res.1 res.2
  else .fault (.unimplementedOpcode op)

/-- One `run` step: fetch the opcode at `program_counter`, advance the
counter by 2, then dispatch. -/
def run (rnd : Nat) (s : CPU) (screen : Screen) : StepResult :=
  step rnd { s with program_counter := s.program_counter + 2 } screen (read_opcode s)

/-- Whether a step outcome is a panic. -/
def StepResult.isFault : StepResult → Bool
  | .fault _ => true
  | _ => false

/-- The `program_counter` of a non-faulting step outcome. -/
def StepResult.pcOf : StepResult → Option Nat
  | .terminated s _ => some s.program_counter
  | .ok s _ => some s.program_counter
  | .fault _ => none

/-- The `stack_pointer` of a non-faulting step outcome. -/
def StepResult.spOf : StepResult → Option Nat
  | .terminated s _ => some s.stack_pointer
  | .ok s _ => some s.stack_pointer
  | .fault _ => none

/-- The `program_counter` of a non-panicking `call`/`ret` result. -/
def pcOfExcept : Except Fault CPU → Option Nat
  | .ok s => some s.program_counter
  | .error _ => none

/-- The `stack_pointer` of a non-panicking `call`/`ret` result. -/
def spOfExcept : Except Fault CPU → Option Nat
  | .ok s => some s.stack_pointer
  | .error _ => none

/-- Whether a `call`/`ret` result is a success. -/
def exceptOk : Except Fault CPU → Bool
  | .ok _ => true
  | .error _ => false

/-- Whether the `stack_pointer` of a step outcome is within 0..16 (a panic
has no resulting state and counts as within). -/
def spWithin16 : StepResult → Bool
  | .terminated s1 _ => decide (s1.stack_pointer ≤ 16)
  | .ok s1 _ => decide (s1.stack_pointer ≤ 16)
  | .fault _ => true

/-- A state `s1` that differs from `s` only by its `program_counter`, which
advanced by exactly `k`. -/
def onlyPCAdvanced (s s1 : CPU) (k : Nat) : Prop :=
  s1.program_counter = s.program_counter + k ∧
  s1.registers = s.registers ∧ s1.memory = s.memory ∧ s1.stack = s.stack ∧
  s1.stack_pointer = s.stack_pointer ∧ s1.i = s.i

/-- Modelled from the spec, for comparison with `get_display_bits`: one
sprite row as the spec describes it — 8 columns, one byte per row, the
most-significant bit of the byte is the leftmost column. -/
def specSpriteRow (b : Nat) : List Bool :=
  (List.range 8).map (fun k => decide (b / 2 ^ (7 - k) % 2 = 1))

/-- A blank display buffer. -/
def blankScreen : Screen := fun _ _ => false

/-- The freshly built CPU with zero registers and memory, at the program
start (`program_counter = 200`). -/
def zeroCPU : CPU :=
  { program_counter := 200, registers := fun _ => 0, memory := fun _ => 0,
    stack := fun _ => 0, stack_pointer := 0, i := 0 }

/-- A CPU whose 16-slot stack is full. -/
def fullCPU : CPU := { zeroCPU with stack_pointer := 16 }

/-- A CPU with one pending call on the stack. -/
def oneCPU : CPU := { zeroCPU with stack_pointer := 1 }

/-- A CPU about to execute the undefined pattern `5,0,1,1` (opcode
`0x5011`). -/
def skipBugCPU : CPU :=
  { zeroCPU with memory := fun a => if a = 200 then 0x50 else if a = 201 then 0x11 else 0 }

/-- A CPU whose `i` register points at a single sprite byte `0x01`
(binary `00000001`: only the least-significant bit set). -/
def drawBugCPU : CPU :=
  { zeroCPU with i := 768, memory := fun a => if a = 768 then 1 else 0 }

/-- A CPU whose `program_counter` does not fit in 16 bits. -/
def pcTruncCPU : CPU := { zeroCPU with program_counter := 65536 }

/-- A CPU with the flag register (15) holding 5. -/
def flagFiveCPU : CPU :=
  { zeroCPU with registers := Function.update zeroCPU.registers 15 5 }

/-- A CPU with `registers[0] = 200` and `registers[1] = 100`. -/
def sum300CPU : CPU :=
  { zeroCPU with registers := fun j => if j = 0 then 200 else if j = 1 then 100 else 0 }

/-- A CPU with `program_counter = 300` and two pending calls. -/
def callRetCPU : CPU := { zeroCPU with program_counter := 300, stack_pointer := 2 }

@[simp] theorem jump_sp (s : CPU) (a : Nat) : (jump s a).stack_pointer = s.stack_pointer := rfl

@[simp] theorem jump_reg_sp (s : CPU) (a : Nat) : (jump_reg s a).stack_pointer = s.stack_pointer := rfl

@[simp] theorem skip_equal_sp (s : CPU) (x nn : Nat) :
    (skip_equal s x nn).stack_pointer = s.stack_pointer := by
  unfold skip_equal; split <;> rfl

@[simp] theorem skip_not_equal_sp (s : CPU) (x nn : Nat) :
    (skip_not_equal s x nn).stack_pointer = s.stack_pointer := by
  unfold skip_not_equal; split <;> rfl

@[simp] theorem skip_equal_reg_sp (s : CPU) (x y : Nat) :
    (skip_equal_reg s x y).stack_pointer = s.stack_pointer := by
  unfold skip_equal_reg; split <;> rfl

@[simp] theorem skip_not_equal_reg_sp (s : CPU) (x y : Nat) :
    (skip_not_equal_reg s x y).stack_pointer = s.stack_pointer := by
  unfold skip_not_equal_reg; split <;> rfl

@[simp] theorem set_register_sp (s : CPU) (x nn : Nat) :
    (set_register s x nn).stack_pointer = s.stack_pointer := rfl

@[simp] theorem add_sp (s : CPU) (x nn : Nat) : (add s x nn).stack_pointer = s.stack_pointer := rfl

@[simp] theorem assign_sp (s : CPU) (x y : Nat) : (assign s x y).stack_pointer = s.stack_pointer := rfl

@[simp] theorem or_xy_sp (s : CPU) (x y : Nat) : (or_xy s x y).stack_pointer = s.stack_pointer := rfl

@[simp] theorem and_xy_sp (s : CPU) (x y : Nat) : (and_xy s x y).stack_pointer = s.stack_pointer := rfl

@[simp] theorem xor_xy_sp (s : CPU) (x y : Nat) : (xor_xy s x y).stack_pointer = s.stack_pointer := rfl

@[simp] theorem add_xy_sp (s : CPU) (x y : Nat) : (add_xy s x y).stack_pointer = s.stack_pointer := rfl

@[simp] theorem sub_xy_sp (s : CPU) (x y : Nat) : (sub_xy s x y).stack_pointer = s.stack_pointer := rfl

@[simp] theorem sub_n_sp (s : CPU) (x y : Nat) : (sub_n s x y).stack_pointer = s.stack_pointer := rfl

@[simp] theorem shift_right_sp (s : CPU) (x : Nat) :
    (shift_right s x).stack_pointer = s.stack_pointer := rfl

@[simp] theorem shift_left_sp (s : CPU) (x : Nat) :
    (shift_left s x).stack_pointer = s.stack_pointer := rfl

@[simp] theorem set_i_sp (s : CPU) (a : Nat) : (set_i s a).stack_pointer = s.stack_pointer := rfl

@[simp] theorem set_i_reg_sp (s : CPU) (x : Nat) :
    (set_i_reg s x).stack_pointer = s.stack_pointer := rfl

@[simp] theorem rand_sp (s : CPU) (nn rnd : Nat) :
    (rand s nn rnd).stack_pointer = s.stack_pointer := rfl

@[simp] theorem bcd_sp (s : CPU) (x : Nat) : (bcd s x).stack_pointer = s.stack_pointer := rfl

@[simp] theorem reg_dump_sp (s : CPU) (x : Nat) : (reg_dump s x).stack_pointer = s.stack_pointer := rfl

@[simp] theorem reg_load_sp (s : CPU) (x : Nat) : (reg_load s x).stack_pointer = s.stack_pointer := rfl

@[simp] theorem draw_sp (s : CPU) (x y d : Nat) (scr : Screen) :
    (draw s x y d scr).1.stack_pointer = s.stack_pointer := rfl

/-- A successful `call` requires a free slot and bumps the stack pointer. -/
theorem call_ok_sp {s s1 : CPU} {a : Nat} (h : call s a = Except.ok s1) :
    s.stack_pointer < 16 ∧ s1.stack_pointer = s.stack_pointer + 1 := by
  unfold call at h
  split at h
  · simp at h
  · next hge =>
      injection h with h1
      subst h1
      exact ⟨by omega, rfl⟩

/-- A successful `ret` requires a pending call and drops the stack pointer. -/
theorem ret_ok_sp {s s1 : CPU} (h : ret s = Except.ok s1) :
    s.stack_pointer ≠ 0 ∧ s1.stack_pointer = s.stack_pointer - 1 := by
  unfold ret at h
  split at h
  · simp at h
  · next hne =>
      injection h with h1
      subst h1
      exact ⟨hne, rfl⟩

/-- Every dispatch branch keeps the stack pointer within 0..16. -/
theorem step_sp (rnd : Nat) (s : CPU) (scr : Screen) (op : Nat)
    (h : s.stack_pointer ≤ 16) : spWithin16 (step rnd s scr op) = true := by
  unfold step
  by_cases h1 : opc op = 0 ∧ opx op = 0 ∧ opy op = 0 ∧ opd op = 0
  · rw [if_pos h1]; simpa [spWithin16] using h
  rw [if_neg h1]
  by_cases h2 : opc op = 0 ∧ opx op = 0 ∧ opy op = 0xE ∧ opd op = 0xE
  · rw [if_pos h2]
    cases hr : ret s with
    | error f => simp [spWithin16]
    | ok s1 =>
        have h2b := ret_ok_sp hr
        simp only [spWithin16, decide_eq_true_eq]
        omega
  rw [if_neg h2]
  by_cases h3 : opc op = 0x1
  · rw [if_pos h3]; simpa [spWithin16] using h
  rw [if_neg h3]
  by_cases h4 : opc op = 0x2
  · rw [if_pos h4]
    cases hc : call s (opnnn op) with
    | error f => simp [spWithin16]
    | ok s1 =>
        have h4b := call_ok_sp hc
        simp only [spWithin16, decide_eq_true_eq]
        omega
  rw [if_neg h4]
  by_cases h5 : opc op = 0x3
  · rw [if_pos h5]; simpa [spWithin16] using h
  rw [if_neg h5]
  by_cases h6 : opc op = 0x4
  · rw [if_pos h6]; simpa [spWithin16] using h
  rw [if_neg h6]
  by_cases h7 : opc op = 0x5
  · rw [if_pos h7]; simpa [spWithin16] using h
  rw [if_neg h7]
  by_cases h8 : opc op = 0x6
  · rw [if_pos h8]; simpa [spWithin16] using h
  rw [if_neg h8]
  by_cases h9 : opc op = 0x7
  · rw [if_pos h9]; simpa [spWithin16] using h
  rw [if_neg h9]
  by_cases h10 : opc op = 0x8 ∧ opd op = 0
  · rw [if_pos h10]; simpa [spWithin16] using h
  rw [if_neg h10]
  by_cases h11 : opc op = 0x8 ∧ opd op = 0x1
  · rw [if_pos h11]; simpa [spWithin16] using h
  rw [if_neg h11]
  by_cases h12 : opc op = 0x8 ∧ opd op = 0x2
  · rw [if_pos h12]; simpa [spWithin16] using h
  rw [if_neg h12]
  by_cases h13 : opc op = 0x8 ∧ opd op = 0x3
  · rw [if_pos h13]; simpa [spWithin16] using h
  rw [if_neg h13]
  by_cases h14 : opc op = 0x8 ∧ opd op = 0x4
  · rw [if_pos h14]; simpa [spWithin16] using h
  rw [if_neg h14]
  by_cases h15 : opc op = 0x8 ∧ opd op = 0x5
  · rw [if_pos h15]; simpa [spWithin16] using h
  rw [if_neg h15]
  by_cases h16 : opc op = 0x8 ∧ opd op = 0x6
  · rw [if_pos h16]; simpa [spWithin16] using h
  rw [if_neg h16]
  by_cases h17 : opc op = 0x8 ∧ opd op = 0x7
  · rw [if_pos h17]; simpa [spWithin16] using h
  rw [if_neg h17]
  by_cases h18 : opc op = 0x8 ∧ opd op = 0xE
  · rw [if_pos h18]; simpa [spWithin16] using h
  rw [if_neg h18]
  by_cases h19 : opc op = 0x9 ∧ opd op = 0
  · rw [if_pos h19]; simpa [spWithin16] using h
  rw [if_neg h19]
  by_cases h20 : opc op = 0xA
  · rw [if_pos h20]; simpa [spWithin16] using h
  rw [if_neg h20]
  by_cases h21 : opc op = 0xB
  · rw [if_pos h21]; simpa [spWithin16] using h
  rw [if_neg h21]
  by_cases h22 : opc op = 0xC
  · rw [if_pos h22]; simpa [spWithin16] using h
  rw [if_neg h22]
  by_cases h23 : opc op = 0xF ∧ opy op = 0x1 ∧ opd op = 0xE
  · rw [if_pos h23]; simpa [spWithin16] using h
  rw [if_neg h23]
  by_cases h24 : opc op = 0xF ∧ opy op = 0x3 ∧ opd op = 0x3
  · rw [if_pos h24]; simpa [spWithin16] using h
  rw [if_neg h24]
  by_cases h25 : opc op = 0xF ∧ opy op = 0x5 ∧ opd op = 0x5
  · rw [if_pos h25]; simpa [spWithin16] using h
  rw [if_neg h25]
  by_cases h26 : opc op = 0xF ∧ opy op = 0x6 ∧ opd op = 0x5
  · rw [if_pos h26]; simpa [spWithin16] using h
  rw [if_neg h26]
  by_cases h27 : opc op = 0xD
  · rw [if_pos h27]; simpa [spWithin16] using h
  rw [if_neg h27]
  rfl

/-- C1 (code bug, failing input): the sprite byte `0x01` is rendered by
`get_display_bits` as the one-character string `1` (the `{:b}` of
`format!` does not zero-pad to 8 columns), so `draw` toggles the pixel at
column `registers[x] + 0`; under the MSB-leftmost 8-column reading of the
spec (`specSpriteRow`) the set bit is bit 7, i.e. column
`registers[x] + 7`, and column 0 carries a clear bit. -/
theorem draw_unpadded_bits_bug :
    specSpriteRow 1 = [false, false, false, false, false, false, false, true] ∧
    get_display_bits drawBugCPU 1 = [[true]] ∧
    (draw drawBugCPU 0 1 1 blankScreen).2 0 0 = true ∧
    (draw drawBugCPU 0 1 1 blankScreen).2 0 7 = false := by
  decide

/-- C2 (code bug, failing input): the dispatch arm for `c = 5` matches every
`d` nibble, so the undefined pattern `5,0,1,1` (opcode `0x5011`, not in the
decode table, which defines only `5,x,y,0`) is executed as
skip-if-registers-equal instead of faulting: the step is not a fault and the
program counter advances to 204 (the skip was taken, since
`registers[0] = registers[1]`). -/
theorem dispatch_5xy1_no_fault :
    read_opcode skipBugCPU = 0x5011 ∧
    opc 0x5011 = 5 ∧ opd 0x5011 = 1 ∧
    (run 1 skipBugCPU blankScreen).isFault = false ∧
    (run 1 skipBugCPU blankScreen).pcOf = some 204 := by
  decide

/-- C3 (counterexample): with `x = 15` the add-immediate operation writes
its result into the flag register itself, so register 15 does not stay
unchanged (here it goes from 0 to 1). -/
theorem add_flag_register_cex :
    (add zeroCPU 15 1).registers 15 ≠ zeroCPU.registers 15 := by
  decide

/-- C3 (amended): for every register index `x` and 8-bit `nn`, `7,x,nn`
sets `registers[x] := (registers[x] + nn) mod 256`, leaves every other
register — in particular, when `x ≠ 15`, the flag register 15 — unchanged,
and touches no other state. -/
theorem add_immediate_wraps (s : CPU) (x nn : Nat) (hnn : nn < 256) :
    (add s x nn).registers x = (s.registers x + nn) % 256 ∧
    (∀ j, j ≠ x → (add s x nn).registers j = s.registers j) ∧
    (x ≠ 15 → (add s x nn).registers 15 = s.registers 15) ∧
    (add s x nn).program_counter = s.program_counter ∧
    (add s x nn).memory = s.memory ∧
    (add s x nn).stack = s.stack ∧
    (add s x nn).stack_pointer = s.stack_pointer ∧
    (add s x nn).i = s.i := by
  refine ⟨?_, ?_, ?_, rfl, rfl, rfl, rfl, rfl⟩
  · show Function.update s.registers x ((s.registers x + nn % 256) % 256) x = _
    rw [Function.update_same, Nat.mod_eq_of_lt hnn]
  · intro j hj
    exact Function.update_noteq hj _ _
  · intro hx
    exact Function.update_noteq (Ne.symm hx) _ _

/-- Witness for `add_immediate_wraps` at `x = 2`, `nn = 5`. -/
theorem add_immediate_wraps_witness :
    (5 : Nat) < 256 ∧
    (add zeroCPU 2 5).registers 2 = (zeroCPU.registers 2 + 5) % 256 ∧
    (add zeroCPU 2 5).registers 0 = zeroCPU.registers 0 ∧
    (add zeroCPU 2 5).registers 15 = zeroCPU.registers 15 :=
  ⟨by decide,
   (add_immediate_wraps zeroCPU 2 5 (by decide)).1,
   (add_immediate_wraps zeroCPU 2 5 (by decide)).2.1 0 (by decide),
   (add_immediate_wraps zeroCPU 2 5 (by decide)).2.2.1 (by decide)⟩

/-- C4: a call with `stack_pointer = 16` is the stack-overflow fault (no
push happens — the fault carries no state), a return with
`stack_pointer = 0` is the stack-underflow fault, a call succeeds whenever
`stack_pointer < 16`, a return succeeds whenever `0 < stack_pointer`, and a
whole fetch-decode-execute step started with `stack_pointer ≤ 16` ends with
`stack_pointer ≤ 16`. -/
theorem stack_discipline (s : CPU) (addr rnd : Nat) (scr : Screen) :
    (s.stack_pointer = 16 → call s addr = Except.error Fault.stackOverflow) ∧
    (s.stack_pointer = 0 → ret s = Except.error Fault.stackUnderflow) ∧
    (s.stack_pointer < 16 → exceptOk (call s addr) = true) ∧
    (0 < s.stack_pointer → s.stack_pointer ≤ 16 → exceptOk (ret s) = true) ∧
    (s.stack_pointer ≤ 16 → spWithin16 (run rnd s scr) = true) := by
  refine ⟨?_, ?_, ?_, ?_, ?_⟩
  · intro h16
    unfold call
    rw [if_pos (by omega)]
  · intro h0
    unfold ret
    rw [if_pos h0]
  · intro hlt
    unfold call
    rw [if_neg (by omega)]
    rfl
  · intro hpos _hle
    unfold ret
    rw [if_neg (by omega)]
    rfl
  · intro hle
    exact step_sp rnd _ scr (read_opcode s) hle

/-- Witness for `stack_discipline` at stack pointers 16, 0 and 1. -/
theorem stack_discipline_witness :
    fullCPU.stack_pointer = 16 ∧
    call fullCPU 300 = Except.error Fault.stackOverflow ∧
    ret zeroCPU = Except.error Fault.stackUnderflow ∧
    exceptOk (call zeroCPU 300) = true ∧
    exceptOk (ret oneCPU) = true ∧
    spWithin16 (run 1 zeroCPU blankScreen) = true :=
  ⟨rfl,
   (stack_discipline fullCPU 300 1 blankScreen).1 rfl,
   (stack_discipline zeroCPU 300 1 blankScreen).2.1 rfl,
   (stack_discipline zeroCPU 300 1 blankScreen).2.2.1 (by decide),
   (stack_discipline oneCPU 300 1 blankScreen).2.2.2.1 (by decide) (by decide),
   (stack_discipline zeroCPU 300 1 blankScreen).2.2.2.2 (by decide)⟩

/-- C5 (counterexample): `call` stores `program_counter as u16`, so from a
state with `program_counter = 65536` (a `usize` value that does not fit in
16 bits) a call immediately followed by a return comes back to 0, not to
65536. -/
theorem call_ret_truncates_pc_cex :
    pcTruncCPU.stack_pointer < 16 ∧
    pcTruncCPU.program_counter = 65536 ∧
    pcOfExcept ((call pcTruncCPU 100).bind ret) = some 0 ∧
    pcOfExcept ((call pcTruncCPU 100).bind ret) ≠ some pcTruncCPU.program_counter := by
  decide

/-- C5 (amended): for every state with `stack_pointer < 16` and a
`program_counter` that fits in 16 bits, `call` followed immediately by
`ret` restores both `program_counter` and `stack_pointer`. -/
theorem call_then_ret_restores (s : CPU) (addr : Nat)
    (hsp : s.stack_pointer < 16) (hpc : s.program_counter < 65536) :
    pcOfExcept ((call s addr).bind ret) = some s.program_counter ∧
    spOfExcept ((call s addr).bind ret) = some s.stack_pointer := by
  have hn : ¬ s.stack_pointer ≥ 16 := by omega
  unfold call
  rw [if_neg hn]
  show pcOfExcept (ret _) = _ ∧ spOfExcept (ret _) = _
  unfold ret
  rw [if_neg (by simp)]
  constructor
  · show some (Function.update s.stack s.stack_pointer (s.program_counter % 65536)
        (s.stack_pointer + 1 - 1)) = _
    rw [Nat.add_sub_cancel, Function.update_same, Nat.mod_eq_of_lt hpc]
  · show some (s.stack_pointer + 1 - 1) = _
    rw [Nat.add_sub_cancel]

/-- Witness for `call_then_ret_restores` at `program_counter = 300`,
`stack_pointer = 2`. -/
theorem call_then_ret_restores_witness :
    callRetCPU.stack_pointer < 16 ∧
    callRetCPU.program_counter < 65536 ∧
    pcOfExcept ((call callRetCPU 7).bind ret) = some callRetCPU.program_counter ∧
    spOfExcept ((call callRetCPU 7).bind ret) = some callRetCPU.stack_pointer :=
  ⟨by decide, by decide,
   (call_then_ret_restores callRetCPU 7 (by decide) (by decide)).1,
   (call_then_ret_restores callRetCPU 7 (by decide) (by decide)).2⟩

/-- C6 (counterexample): with `x = 15` the flag write of `add_xy` follows
the sum write into the same register, so `registers[x]` does not end up at
`(a + b) mod 256`: from `registers[15] = 5`, `registers[0] = 0` the final
`registers[15]` is the flag 0, not 5. -/
theorem add_xy_flag_cex :
    flagFiveCPU.registers 15 = 5 ∧
    flagFiveCPU.registers 0 = 0 ∧
    (add_xy flagFiveCPU 15 0).registers 15
      ≠ (flagFiveCPU.registers 15 + flagFiveCPU.registers 0) % 256 := by
  decide

/-- C6 (amended): `add_xy` always sets the flag register 15 to 1 exactly
when `registers[x] + registers[y] ≥ 256` and else to 0; when `x ≠ 15` it
also leaves `registers[x] = (registers[x] + registers[y]) mod 256`, the
other registers and all remaining state unchanged (when `x = 15` the flag
write overwrites the sum). -/
theorem add_xy_wraps_and_flags (s : CPU) (x y : Nat) :
    (add_xy s x y).registers 15
      = (if s.registers x + s.registers y ≥ 256 then 1 else 0) ∧
    (x ≠ 15 → (add_xy s x y).registers x = (s.registers x + s.registers y) % 256) ∧
    (∀ j, j ≠ x → j ≠ 15 → (add_xy s x y).registers j = s.registers j) ∧
    (add_xy s x y).program_counter = s.program_counter ∧
    (add_xy s x y).memory = s.memory ∧
    (add_xy s x y).stack = s.stack ∧
    (add_xy s x y).stack_pointer = s.stack_pointer ∧
    (add_xy s x y).i = s.i := by
  have e : (add_xy s x y).registers
      = Function.update
          (Function.update s.registers x ((s.registers x + s.registers y) % 256))
          15 (if s.registers x + s.registers y ≥ 256 then 1 else 0) := rfl
  refine ⟨?_, ?_, ?_, rfl, rfl, rfl, rfl, rfl⟩
  · rw [e, Function.update_same]
  · intro hx
    rw [e, Function.update_noteq hx, Function.update_same]
  · intro j hjx hj15
    rw [e, Function.update_noteq hj15, Function.update_noteq hjx]

/-- Witness for `add_xy_wraps_and_flags` at `registers[0] = 200`,
`registers[1] = 100` (sum 300 overflows). -/
theorem add_xy_wraps_and_flags_witness :
    (add_xy sum300CPU 0 1).registers 15
      = (if sum300CPU.registers 0 + sum300CPU.registers 1 ≥ 256 then 1 else 0) ∧
    (add_xy sum300CPU 0 1).registers 0
      = (sum300CPU.registers 0 + sum300CPU.registers 1) % 256 ∧
    (add_xy sum300CPU 0 1).registers 2 = sum300CPU.registers 2 :=
  ⟨(add_xy_wraps_and_flags sum300CPU 0 1).1,
   (add_xy_wraps_and_flags sum300CPU 0 1).2.1 (by decide),
   (add_xy_wraps_and_flags sum300CPU 0 1).2.2.1 2 (by decide) (by decide)⟩

/-- C7: `F,x,1,E` adds `registers[x]` into `i` wrapping modulo 2^16, keeps
`i` a 16-bit value, and changes nothing else. -/
theorem set_i_reg_wrapping (s : CPU) (x : Nat) :
    (set_i_reg s x).i = (s.i + s.registers x) % 65536 ∧
    (set_i_reg s x).i < 65536 ∧
    (set_i_reg s x).registers = s.registers ∧
    (set_i_reg s x).memory = s.memory ∧
    (set_i_reg s x).stack = s.stack ∧
    (set_i_reg s x).stack_pointer = s.stack_pointer ∧
    (set_i_reg s x).program_counter = s.program_counter :=
  ⟨rfl, Nat.mod_lt _ (by omega), rfl, rfl, rfl, rfl, rfl⟩

/-- C8: `rand` writes `nn & rnd` (as a byte) into register 0 and nothing
else; and every opcode with leading nibble `C` dispatches to `rand` applied
to the `nn` field only, so the result is the same for every `x` field. -/
theorem rand_register_zero (s : CPU) (scr : Screen) (nn rnd op : Nat)
    (hc : opc op = 0xC) :
    (rand s nn rnd).registers 0 = Nat.land nn rnd % 256 ∧
    (∀ j, j ≠ 0 → (rand s nn rnd).registers j = s.registers j) ∧
    (rand s nn rnd).memory = s.memory ∧
    (rand s nn rnd).stack = s.stack ∧
    (rand s nn rnd).stack_pointer = s.stack_pointer ∧
    (rand s nn rnd).i = s.i ∧
    (rand s nn rnd).program_counter = s.program_counter ∧
    step rnd s scr op = StepResult.ok (rand s (opnn op) rnd) scr := by
  have e : (rand s nn rnd).registers
      = Function.update s.registers 0 (Nat.land nn rnd % 256) := rfl
  refine ⟨?_, ?_, rfl, rfl, rfl, rfl, rfl, ?_⟩
  · rw [e, Function.update_same]
  · intro j hj
    rw [e, Function.update_noteq hj]
  · unfold step
    simp [hc]

/-- Witness for `rand_register_zero` at opcode `0xC533` (so `x = 5`),
`nn = 0x33`, `rnd = 7`. -/
theorem rand_register_zero_witness :
    opc 0xC533 = 0xC ∧
    (rand zeroCPU 0x33 7).registers 0 = Nat.land 0x33 7 % 256 ∧
    (rand zeroCPU 0x33 7).registers 5 = zeroCPU.registers 5 ∧
    step 7 zeroCPU blankScreen 0xC533
      = StepResult.ok (rand zeroCPU (opnn 0xC533) 7) blankScreen :=
  ⟨by decide,
   (rand_register_zero zeroCPU blankScreen 0x33 7 0xC533 (by decide)).1,
   (rand_register_zero zeroCPU blankScreen 0x33 7 0xC533 (by decide)).2.1 5 (by decide),
   (rand_register_zero zeroCPU blankScreen 0x33 7 0xC533 (by decide)).2.2.2.2.2.2.2⟩

/-- C9: each of the four conditional skips advances `program_counter` by
exactly 2 when its condition holds and by 0 otherwise, and leaves the
registers, memory, stack, stack pointer and `i` register untouched. -/
theorem conditional_skips_only_advance_pc (s : CPU) (x y nn : Nat) :
    onlyPCAdvanced s (skip_equal s x nn)
      (if s.registers x = nn % 256 then 2 else 0) ∧
    onlyPCAdvanced s (skip_not_equal s x nn)
      (if s.registers x ≠ nn % 256 then 2 else 0) ∧
    onlyPCAdvanced s (skip_equal_reg s x y)
      (if s.registers x = s.registers y then 2 else 0) ∧
    onlyPCAdvanced s (skip_not_equal_reg s x y)
      (if s.registers x ≠ s.registers y then 2 else 0) := by
  refine ⟨?_, ?_, ?_, ?_⟩ <;>
    · simp only [onlyPCAdvanced, skip_equal, skip_not_equal, skip_equal_reg,
        skip_not_equal_reg]
      split <;> simp_all

/-- C10: a draw with height nibble `d = 0` reads no sprite rows, leaves the
screen untouched, and still unconditionally clobbers the flag register 15
with 0, leaving every other part of the state unchanged. -/
theorem draw_zero_height (s : CPU) (x y : Nat) (scr : Screen) :
    (draw s x y 0 scr).2 = scr ∧
    (draw s x y 0 scr).1.registers 15 = 0 ∧
    (draw s x y 0 scr).1.registers = Function.update s.registers 15 0 ∧
    (draw s x y 0 scr).1.memory = s.memory ∧
    (draw s x y 0 scr).1.stack = s.stack ∧
    (draw s x y 0 scr).1.stack_pointer = s.stack_pointer ∧
    (draw s x y 0 scr).1.i = s.i ∧
    (draw s x y 0 scr).1.program_counter = s.program_counter := by
  have e : (draw s x y 0 scr).1.registers = Function.update s.registers 15 0 := rfl
  refine ⟨rfl, ?_, rfl, rfl, rfl, rfl, rfl, rfl⟩
  rw [e, Function.update_same]

end Chip8
